import Mathlib

/-!
Shallow embedding of the cart-management and pricing code of `src/app.js`
(RideFinder), together with proofs about its specification.

Modelling conventions:
* the in-memory cart is a typed structure mirroring the JSON shape
  `{ items: [...] }`;
* JavaScript numbers are modelled as `Int` for ticket counts / day counts
  and as exact rationals (`ℚ`) for prices and money amounts (the spec
  treats all amounts as decimal currency values, rounded only at display
  time);
* `Date.now()` is an explicit parameter `now : Nat` of `addItemToCart`;
* the persisted blob is modelled twice: at the string level
  (`Option String`, with a model of the `JSON.parse` builtin) for the
  behaviour of `getCart`, and at the decoded level (`Option Cart`) for
  the persistence behaviour of the repository operations, abstracting
  the JSON round trip.
-/

/-- Ticket counts of one cart item (`item.tickets` in `app.js`). -/
structure Tickets where
  adults : Int
  kids : Int
deriving Repr, DecidableEq

/-- Price snapshot of one cart item (`item.unitPrice`), captured at add
time. -/
structure UnitPrice where
  adult : ℚ
  child : ℚ
deriving Repr, DecidableEq

/-- One line of the cart, with the fields used by `app.js`. -/
structure CartItem where
  id : String
  parkId : String
  days : Int
  tickets : Tickets
  unitPrice : UnitPrice
  parkName : String
  parkImage : String
deriving Repr, DecidableEq

/-- The cart object `{ items: [...] }`. -/
structure Cart where
  items : List CartItem
deriving Repr, DecidableEq

/-- Input of `addItemToCart` (`newItem`): all fields of a cart item except
`id`, which `addItemToCart` generates itself (any `id` on `newItem` is
overwritten by the spread `{ ...newItem, id: ... }` on line 99). -/
structure CartItemInput where
  parkId : String
  days : Int
  tickets : Tickets
  unitPrice : UnitPrice
  parkName : String
  parkImage : String
deriving Repr, DecidableEq

/-- The fresh item pushed on line 99: `{ ...newItem, id: `cart-${Date.now()}` }`,
with `now` the value of `Date.now()`. -/
def mkCartItem (n : CartItemInput) (now : Nat) : CartItem :=
  { id := "cart-" ++ toString now
    parkId := n.parkId
    days := n.days
    tickets := n.tickets
    unitPrice := n.unitPrice
    parkName := n.parkName
    parkImage := n.parkImage }

/-- Lines 95-96: increment the existing item's ticket counts by the
input's counts (the other fields of the existing item, in particular its
`unitPrice` snapshot, are untouched). -/
def mergeTickets (item : CartItem) (n : CartItemInput) : CartItem :=
  { item with tickets :=
    { adults := item.tickets.adults + n.tickets.adults
      kids := item.tickets.kids + n.tickets.kids } }

/-- Lines 91-96 of `addItemToCart`:
`cart.items.findIndex(item => item.parkId === newItem.parkId && item.days === newItem.days)`
fused with the in-place update of the found element.  Returns `some` of
the updated list when some item matches (the first such item gets its
ticket counts incremented), `none` when no item matches (`findIndex`
returned `-1`). -/
def addMerge : List CartItem → CartItemInput → Option (List CartItem)
  | [], _ => none
  | item :: rest, n =>
    if item.parkId = n.parkId ∧ item.days = n.days then
      some (mergeTickets item n :: rest)
    else
      (addMerge rest n).map (fun l => item :: l)

/-- `addItemToCart` (lines 88-102), acting on the loaded cart: merge into
the first item with the same `(parkId, days)` pair if one exists,
otherwise push a fresh item with id `cart-${Date.now()}`.  The resulting
cart is the one passed to `saveCart`. -/
def addItemToCart (cart : Cart) (n : CartItemInput) (now : Nat) : Cart :=
  match addMerge cart.items n with
  | some items => { items := items }
  | none => { items := cart.items ++ [mkCartItem n now] }

/-- A sequence of `addItemToCart` calls, each with its own `newItem` and
`Date.now()` value. -/
def addAll (cart : Cart) (adds : List (CartItemInput × Nat)) : Cart :=
  adds.foldl (fun c a => addItemToCart c a.1 a.2) cart

/-- `removeItemFromCart` (lines 108-112), acting on the loaded cart:
`cart.items = cart.items.filter(item => item.id !== itemId)`. -/
def removeItemFromCart (cart : Cart) (itemId : String) : Cart :=
  { items := cart.items.filter (fun item => decide (item.id ≠ itemId)) }

/-- The two ticket-type keys accepted by `updateCartItemQuantity`
(`'adults' | 'kids'`). -/
inductive TicketType where
  | adults
  | kids
deriving Repr, DecidableEq

/-- Line 127: `cart.items[itemIndex].tickets[ticketType] = newQuantity`. -/
def setTicket (t : Tickets) : TicketType → Int → Tickets
  | TicketType.adults, q => { t with adults := q }
  | TicketType.kids, q => { t with kids := q }

/-- Lines 123-131 of `updateCartItemQuantity`:
`cart.items.findIndex(item => item.id === itemId)` fused with the guarded
update of the found element.  On the first item whose `id` matches: when
`0 ≤ newQuantity` the specified ticket count is set, and the item is
spliced out when both counts are then exactly zero; when the quantity is
negative nothing is mutated.  When no item matches the list is
unchanged. -/
def updateFirst : List CartItem → String → TicketType → Int → List CartItem
  | [], _, _, _ => []
  | item :: rest, itemId, ty, q =>
    if item.id = itemId then
      if 0 ≤ q then
        if (setTicket item.tickets ty q).adults = 0 ∧ (setTicket item.tickets ty q).kids = 0 then
          rest
        else
          { item with tickets := setTicket item.tickets ty q } :: rest
      else
        item :: rest
    else
      item :: updateFirst rest itemId ty q

/-- `updateCartItemQuantity` (lines 121-135), acting on the loaded cart.
The resulting cart is the one passed to `saveCart` (which is called
unconditionally on line 134). -/
def updateCartItemQuantity (cart : Cart) (itemId : String) (ty : TicketType) (q : Int) : Cart :=
  { items := updateFirst cart.items itemId ty q }

/-- Decoded-level view of the persisted blob: `none` models an absent
`localStorage` key, `some c` a key holding the serialization of `c`.
Loading an absent key yields the fresh empty cart (line 66). -/
def loadStore : Option Cart → Cart
  | none => { items := [] }
  | some c => c

/-- `removeItemFromCart` including its persistence: load the cart
(line 109), filter (line 110), and save the whole resulting cart as the
new blob (line 111) - the save happens regardless of whether anything
matched. -/
def removeItemFromCartStore (store : Option Cart) (itemId : String) : Option Cart :=
  some (removeItemFromCart (loadStore store) itemId)

/-- `updateCartItemQuantity` including its persistence: load (line 122),
update (lines 123-133), and save the whole resulting cart (line 134) -
the save happens even when the update was ignored. -/
def updateCartItemQuantityStore (store : Option Cart) (itemId : String)
    (ty : TicketType) (q : Int) : Option Cart :=
  some (updateCartItemQuantity (loadStore store) itemId ty q)

/-- Line 266 (`createCartItemHTML`): the line total of one item. -/
def lineTotal (item : CartItem) : ℚ :=
  ((item.tickets.adults : ℚ) * item.unitPrice.adult
    + (item.tickets.kids : ℚ) * item.unitPrice.child) * (item.days : ℚ)

/-- The four monetary amounts computed by the order-summary renderers. -/
structure Summary where
  subtotal : ℚ
  discount : ℚ
  tax : ℚ
  total : ℚ
deriving Repr, DecidableEq

/-- Lines 302-305 of `createCartSummaryHTML` (cart page): the numeric part
of the order summary; the surrounding HTML assembly is omitted.  `0.10`
and `0.08` are the exact decimals `10/100` and `8/100`. -/
def createCartSummaryCalc (cart : Cart) : Summary :=
  let subtotal := cart.items.foldl (fun total item =>
    total + ((item.tickets.adults : ℚ) * item.unitPrice.adult
      + (item.tickets.kids : ℚ) * item.unitPrice.child) * (item.days : ℚ)) 0
  let discount := if subtotal > 500 then subtotal * (10 / 100) else 0
  let tax := (subtotal - discount) * (8 / 100)
  let total := subtotal - discount + tax
  { subtotal := subtotal, discount := discount, tax := tax, total := total }

/-- Lines 327-330 of `createCheckoutSummaryHTML` (checkout page): the
numeric part of the checkout summary, duplicated verbatim from the cart
page in the source. -/
def createCheckoutSummaryCalc (cart : Cart) : Summary :=
  let subtotal := cart.items.foldl (fun total item =>
    total + ((item.tickets.adults : ℚ) * item.unitPrice.adult
      + (item.tickets.kids : ℚ) * item.unitPrice.child) * (item.days : ℚ)) 0
  let discount := if subtotal > 500 then subtotal * (10 / 100) else 0
  let tax := (subtotal - discount) * (8 / 100)
  let total := subtotal - discount + tax
  { subtotal := subtotal, discount := discount, tax := tax, total := total }

/-- Modelled from the spec: `computeSummary` as section 4.2 words it
(`subtotal` is the sum of `lineTotal` over the items, `discount` is 10%
above the strict 500 threshold, `tax` is 8% of the discounted subtotal).
Used only to compare the two code-level summary computations against the
spec's formula. -/
def computeSummarySpec (cart : Cart) : Summary :=
  let subtotal := (cart.items.map lineTotal).sum
  let discount := if subtotal > 500 then subtotal * (10 / 100) else 0
  let tax := (subtotal - discount) * (8 / 100)
  let total := subtotal - discount + tax
  { subtotal := subtotal, discount := discount, tax := tax, total := total }

/-- JavaScript values as produced by the `JSON.parse` builtin (the value
categories JSON texts can denote).  Numeric literals are kept as their
source text, which is all the claims need. -/
inductive JsValue where
  | null : JsValue
  | bool : Bool → JsValue
  | num : String → JsValue
  | str : String → JsValue
  | arr : List JsValue → JsValue
  | obj : List (String × JsValue) → JsValue

/-- The double-quote character. -/
def quoteChar : Char := Char.ofNat 34

/-- The backslash character. -/
def backslashChar : Char := Char.ofNat 92

/-- The opening-brace character. -/
def lbraceChar : Char := Char.ofNat 123

/-- The closing-brace character. -/
def rbraceChar : Char := Char.ofNat 125

/-- JSON insignificant whitespace: space, tab, line feed, carriage
return. -/
def isJsonWs (c : Char) : Bool :=
  c == Char.ofNat 32 || c == Char.ofNat 9 || c == Char.ofNat 10 || c == Char.ofNat 13

/-- Drop leading JSON whitespace. -/
def skipWs : List Char → List Char
  | c :: cs => if isJsonWs c then skipWs cs else c :: cs
  | [] => []

/-- Hexadecimal digit test, for `\uXXXX` escapes. -/
def isHexDigitCh (c : Char) : Bool :=
  c.isDigit
    || (decide (97 ≤ c.toNat) && decide (c.toNat ≤ 102))
    || (decide (65 ≤ c.toNat) && decide (c.toNat ≤ 70))

/-- Value of a hexadecimal digit. -/
def hexVal (c : Char) : Nat :=
  if c.isDigit then c.toNat - 48
  else if decide (97 ≤ c.toNat) then c.toNat - 87
  else c.toNat - 55

/-- Body of a JSON string literal, after the opening quote: returns the
decoded characters and the input after the closing quote, handling the
JSON escapes and rejecting raw control characters. -/
def parseStringBody : Nat → List Char → Option (List Char × List Char)
  | 0, _ => none
  | _ + 1, [] => none
  | fuel + 1, c :: cs =>
    if c == quoteChar then some ([], cs)
    else if c == backslashChar then
      match cs with
      | [] => none
      | e :: cs2 =>
        if e == quoteChar then
          (parseStringBody fuel cs2).map (fun pr => (quoteChar :: pr.1, pr.2))
        else if e == backslashChar then
          (parseStringBody fuel cs2).map (fun pr => (backslashChar :: pr.1, pr.2))
        else if e == '/' then
          (parseStringBody fuel cs2).map (fun pr => ('/' :: pr.1, pr.2))
        else if e == 'b' then
          (parseStringBody fuel cs2).map (fun pr => (Char.ofNat 8 :: pr.1, pr.2))
        else if e == 'f' then
          (parseStringBody fuel cs2).map (fun pr => (Char.ofNat 12 :: pr.1, pr.2))
        else if e == 'n' then
          (parseStringBody fuel cs2).map (fun pr => (Char.ofNat 10 :: pr.1, pr.2))
        else if e == 'r' then
          (parseStringBody fuel cs2).map (fun pr => (Char.ofNat 13 :: pr.1, pr.2))
        else if e == 't' then
          (parseStringBody fuel cs2).map (fun pr => (Char.ofNat 9 :: pr.1, pr.2))
        else if e == 'u' then
          match cs2 with
          | h1 :: h2 :: h3 :: h4 :: cs3 =>
            if isHexDigitCh h1 && isHexDigitCh h2 && isHexDigitCh h3 && isHexDigitCh h4 then
              (parseStringBody fuel cs3).map (fun pr =>
                (Char.ofNat (((hexVal h1 * 16 + hexVal h2) * 16 + hexVal h3) * 16 + hexVal h4)
                  :: pr.1, pr.2))
            else none
          | _ => none
        else none
    else if decide (c.toNat < 32) then none
    else (parseStringBody fuel cs).map (fun pr => (c :: pr.1, pr.2))

/-- Longest leading run of decimal digits. -/
def takeDigits : List Char → List Char × List Char
  | c :: cs =>
    if c.isDigit then
      match takeDigits cs with
      | (d, r) => (c :: d, r)
    else ([], c :: cs)
  | [] => ([], [])

/-- Optional fraction part of a JSON number (`.` followed by at least one
digit). -/
def parseFrac : List Char → Option (List Char × List Char)
  | '.' :: cs =>
    (match takeDigits cs with
     | ([], _) => none
     | (d, r) => some ('.' :: d, r))
  | cs => some ([], cs)

/-- Optional exponent part of a JSON number (`e`/`E`, optional sign, at
least one digit). -/
def parseExponent : List Char → Option (List Char × List Char)
  | c :: cs =>
    if c == 'e' || c == 'E' then
      match (match cs with
             | s :: r => if s == '+' || s == '-' then ([s], r) else ([], s :: r)
             | [] => (([] : List Char), ([] : List Char))) with
      | (sgn, cs1) =>
        match takeDigits cs1 with
        | ([], _) => none
        | (d, r) => some (c :: (sgn ++ d), r)
    else some ([], c :: cs)
  | [] => some ([], [])

/-- A JSON number literal: optional minus, integer part with no leading
zero, optional fraction, optional exponent.  Returns the literal text and
the remaining input. -/
def parseNumber (cs : List Char) : Option (List Char × List Char) :=
  match (match cs with
         | '-' :: r => ([('-' : Char)], r)
         | _ => (([] : List Char), cs)) with
  | (neg, cs1) =>
    match cs1 with
    | [] => none
    | c :: r =>
      if c == '0' then
        match parseFrac r with
        | none => none
        | some (f, r1) =>
          match parseExponent r1 with
          | none => none
          | some (e, r2) => some (neg ++ [c] ++ f ++ e, r2)
      else if c.isDigit then
        match takeDigits r with
        | (d, r0) =>
          match parseFrac r0 with
          | none => none
          | some (f, r1) =>
            match parseExponent r1 with
            | none => none
            | some (e, r2) => some (neg ++ (c :: d) ++ f ++ e, r2)
      else none

mutual

/-- Recursive-descent model of the `JSON.parse` grammar: one JSON value,
with leading whitespace.  The fuel bounds the nesting depth; each level
consumes at least one character, so `length + 1` fuel always suffices. -/
def parseJsonValue : Nat → List Char → Option (JsValue × List Char)
  | 0, _ => none
  | fuel + 1, cs =>
    match skipWs cs with
    | [] => none
    | c :: rest =>
      if c == 'n' then
        (match rest with
         | 'u' :: 'l' :: 'l' :: r => some (JsValue.null, r)
         | _ => none)
      else if c == 't' then
        (match rest with
         | 'r' :: 'u' :: 'e' :: r => some (JsValue.bool true, r)
         | _ => none)
      else if c == 'f' then
        (match rest with
         | 'a' :: 'l' :: 's' :: 'e' :: r => some (JsValue.bool false, r)
         | _ => none)
      else if c == quoteChar then
        match parseStringBody (rest.length + 1) rest with
        | some (b, r) => some (JsValue.str (String.mk b), r)
        | none => none
      else if c == '[' then
        (match skipWs rest with
         | ']' :: r => some (JsValue.arr [], r)
         | cs1 =>
           match parseJsonElems fuel cs1 with
           | some (vs, r) => some (JsValue.arr vs, r)
           | none => none)
      else if c == lbraceChar then
        (match skipWs rest with
         | d :: r0 =>
           if d == rbraceChar then some (JsValue.obj [], r0)
           else
             (match parseJsonMembers fuel (d :: r0) with
              | some (ms, r) => some (JsValue.obj ms, r)
              | none => none)
         | [] => none)
      else
        match parseNumber (c :: rest) with
        | some (lit, r) => some (JsValue.num (String.mk lit), r)
        | none => none

/-- Elements of a non-empty JSON array: a value, then either `,` and more
elements or `]` ending the array. -/
def parseJsonElems : Nat → List Char → Option (List JsValue × List Char)
  | 0, _ => none
  | fuel + 1, cs =>
    match parseJsonValue fuel cs with
    | none => none
    | some (v, r) =>
      match skipWs r with
      | ',' :: r1 =>
        (match parseJsonElems fuel r1 with
         | some (vs, r2) => some (v :: vs, r2)
         | none => none)
      | ']' :: r1 => some ([v], r1)
      | _ => none

/-- Members of a non-empty JSON object: a string key, `:`, a value, then
either `,` and more members or the closing brace. -/
def parseJsonMembers : Nat → List Char → Option (List (String × JsValue) × List Char)
  | 0, _ => none
  | fuel + 1, cs =>
    match skipWs cs with
    | [] => none
    | c :: rest =>
      if c == quoteChar then
        match parseStringBody (rest.length + 1) rest with
        | none => none
        | some (k, r) =>
          match skipWs r with
          | ':' :: r1 =>
            (match parseJsonValue fuel r1 with
             | none => none
             | some (v, r2) =>
               match skipWs r2 with
               | ',' :: r3 =>
                 (match parseJsonMembers fuel r3 with
                  | some (ms, r4) => some ((String.mk k, v) :: ms, r4)
                  | none => none)
               | d :: r3 =>
                 if d == rbraceChar then some ([(String.mk k, v)], r3) else none
               | [] => none)
          | _ => none
      else none

end

/-- Model of the `JSON.parse` builtin: parse one value; any leftover
non-whitespace input, or any syntax error, yields a thrown `SyntaxError`,
modelled as `Except.error`. -/
def jsonParse (s : String) : Except String JsValue :=
  match parseJsonValue (s.length + 1) s.data with
  | some (v, r) => if (skipWs r).isEmpty then Except.ok v else Except.error "SyntaxError"
  | none => Except.error "SyntaxError"

/-- The fresh empty cart `{ items: [] }` as a JavaScript value. -/
def emptyCartJs : JsValue := JsValue.obj [("items", JsValue.arr [])]

/-- `getCart` (lines 64-67): read the blob from `localStorage`; `null`
(absent key) and the empty string are falsy, so they yield the fresh
empty cart; any other string is handed to `JSON.parse`, whose exceptions
propagate to the caller (there is no try/catch). -/
def getCart (blob : Option String) : Except String JsValue :=
  match blob with
  | none => Except.ok emptyCartJs
  | some s => if s = "" then Except.ok emptyCartJs else jsonParse s

/-- The invariant on one item implied by the spec's data model: both
ticket counts are non-negative integers and their sum is positive. -/
def itemOk (item : CartItem) : Prop :=
  0 ≤ item.tickets.adults ∧ 0 ≤ item.tickets.kids ∧
    0 < item.tickets.adults + item.tickets.kids

instance (item : CartItem) : Decidable (itemOk item) :=
  inferInstanceAs (Decidable (0 ≤ item.tickets.adults ∧ 0 ≤ item.tickets.kids ∧
    0 < item.tickets.adults + item.tickets.kids))

/-- The cart invariant: every item satisfies `itemOk`. -/
def cartOk (cart : Cart) : Prop := ∀ item ∈ cart.items, itemOk item

instance (cart : Cart) : Decidable (cartOk cart) :=
  inferInstanceAs (Decidable (∀ item ∈ cart.items, itemOk item))

theorem addMerge_preserves (n : CartItemInput)
    (ha : 0 ≤ n.tickets.adults) (hk : 0 ≤ n.tickets.kids) :
    ∀ (l l' : List CartItem), addMerge l n = some l' →
      (∀ x ∈ l, itemOk x) → ∀ x ∈ l', itemOk x := by
  intro l
  induction l with
  | nil => intro l' h hl x hx; simp [addMerge] at h
  | cons a l ih =>
    intro l' h hl
    simp only [addMerge] at h
    by_cases hc : a.parkId = n.parkId ∧ a.days = n.days
    · rw [if_pos hc] at h
      obtain rfl : mergeTickets a n :: l = l' := Option.some.inj h
      intro x hx
      rcases List.mem_cons.mp hx with rfl | hxl
      · obtain ⟨h1, h2, h3⟩ := hl a (List.mem_cons_self a l)
        simp only [itemOk, mergeTickets]
        omega
      · exact hl x (List.mem_cons_of_mem a hxl)
    · rw [if_neg hc] at h
      rcases Option.map_eq_some'.mp h with ⟨l2, hl2, rfl⟩
      intro x hx
      rcases List.mem_cons.mp hx with rfl | hxl
      · exact hl x (List.mem_cons_self x l)
      · exact ih l2 hl2 (fun y hy => hl y (List.mem_cons_of_mem a hy)) x hxl

theorem updateFirst_preserves (itemId : String) (ty : TicketType) (q : Int) :
    ∀ l : List CartItem, (∀ x ∈ l, itemOk x) → ∀ x ∈ updateFirst l itemId ty q, itemOk x := by
  intro l
  induction l with
  | nil => intro _ x hx; simp [updateFirst] at hx
  | cons a l ih =>
    intro hl x hx
    simp only [updateFirst] at hx
    by_cases hid : a.id = itemId
    · rw [if_pos hid] at hx
      by_cases hq : 0 ≤ q
      · rw [if_pos hq] at hx
        by_cases hz : (setTicket a.tickets ty q).adults = 0 ∧ (setTicket a.tickets ty q).kids = 0
        · rw [if_pos hz] at hx
          exact hl x (List.mem_cons_of_mem a hx)
        · rw [if_neg hz] at hx
          rcases List.mem_cons.mp hx with rfl | hxl
          · obtain ⟨h1, h2, h3⟩ := hl a (List.mem_cons_self a l)
            cases ty <;> simp only [itemOk, setTicket] at hz ⊢ <;> omega
          · exact hl x (List.mem_cons_of_mem a hxl)
      · rw [if_neg hq] at hx
        exact hl x hx
    · rw [if_neg hid] at hx
      rcases List.mem_cons.mp hx with rfl | hxl
      · exact hl x (List.mem_cons_self x l)
      · exact ih (fun y hy => hl y (List.mem_cons_of_mem a hy)) x hxl

/-- The input of an `addItemToCart` call with both ticket counts zero,
which the code accepts without validation. -/
def zeroInput : CartItemInput :=
  { parkId := "p1", days := 1, tickets := { adults := 0, kids := 0 },
    unitPrice := { adult := 50, child := 30 }, parkName := "Park", parkImage := "img" }

/-- C2 counterexample: the claim says every repository operation preserves
the invariant that each item has `tickets.adults + tickets.kids > 0` for
every operation input; but `addItemToCart` performs no input validation,
so adding an item with both counts zero to the (invariant-satisfying)
empty cart produces a cart whose single item has count sum zero. -/
theorem c2_counterexample : ¬ cartOk (addItemToCart { items := [] } zeroInput 0) := by
  decide

/-- C2 (amended): the three repository operations preserve the cart
invariant - strengthened, as the code requires, to say that each count is
non-negative and their sum positive - provided each `addItemToCart`
input itself has non-negative counts with positive sum (the code does
not validate inputs; spec section 4.1 assigns validation to the caller).
`updateCartItemQuantity` removes an item immediately when both of its
counts become exactly zero, which is what keeps the sum positive. -/
theorem c2_amended (cart : Cart) (hc : cartOk cart) :
    (∀ (n : CartItemInput) (now : Nat),
        0 ≤ n.tickets.adults → 0 ≤ n.tickets.kids →
        0 < n.tickets.adults + n.tickets.kids →
        cartOk (addItemToCart cart n now)) ∧
    (∀ itemId : String, cartOk (removeItemFromCart cart itemId)) ∧
    (∀ (itemId : String) (ty : TicketType) (q : Int),
        cartOk (updateCartItemQuantity cart itemId ty q)) := by
  refine ⟨?_, ?_, ?_⟩
  · intro n now ha hk hpos x hx
    cases hm : addMerge cart.items n with
    | some l2 =>
      have hx2 : x ∈ l2 := by simpa [addItemToCart, hm] using hx
      exact addMerge_preserves n ha hk cart.items l2 hm hc x hx2
    | none =>
      have hx2 : x ∈ cart.items ++ [mkCartItem n now] := by
        simpa [addItemToCart, hm] using hx
      rcases List.mem_append.mp hx2 with hmem | hmem
      · exact hc x hmem
      · have hxe : x = mkCartItem n now := by simpa using hmem
        subst hxe
        exact ⟨ha, hk, hpos⟩
  · intro itemId x hx
    exact hc x (List.mem_filter.mp hx).1
  · intro itemId ty q
    exact updateFirst_preserves itemId ty q cart.items hc

/-- A concrete cart item satisfying the invariant. -/
def itemW : CartItem :=
  { id := "cart-1"
    parkId := "p1"
    days := 1
    tickets := { adults := 1, kids := 0 }
    unitPrice := { adult := 50, child := 30 }
    parkName := "A"
    parkImage := "a" }

/-- A one-item cart satisfying the invariant, used to instantiate the
preservation theorem. -/
def cartW : Cart := { items := [itemW] }

/-- A valid `addItemToCart` input (positive total count). -/
def inputW : CartItemInput :=
  { parkId := "p2", days := 2, tickets := { adults := 2, kids := 1 },
    unitPrice := { adult := 40, child := 20 }, parkName := "B", parkImage := "b" }

/-- C2 witness: the amended preservation theorem at a concrete cart and
concrete operations. -/
theorem c2_witness :
    cartOk (addItemToCart cartW inputW 7) ∧
    cartOk (removeItemFromCart cartW "cart-1") ∧
    cartOk (updateCartItemQuantity cartW "cart-1" TicketType.adults 3) :=
  ⟨(c2_amended cartW (by decide)).1 inputW 7 (by decide) (by decide) (by decide),
   (c2_amended cartW (by decide)).2.1 "cart-1",
   (c2_amended cartW (by decide)).2.2 "cart-1" TicketType.adults 3⟩

theorem foldl_lineTotal (l : List CartItem) : ∀ a : ℚ,
    l.foldl (fun total item =>
      total + ((item.tickets.adults : ℚ) * item.unitPrice.adult
        + (item.tickets.kids : ℚ) * item.unitPrice.child) * (item.days : ℚ)) a
      = a + (l.map lineTotal).sum := by
  induction l with
  | nil => intro a; simp
  | cons x l ih => intro a; simp [List.foldl_cons, ih, lineTotal, add_assoc]

/-- C4: the pricing summary is computed as the spec's formula (line total
per item, subtotal as the sum over the items with 0 for the empty cart,
10% discount strictly above 500, 8% tax on the discounted subtotal,
total = subtotal - discount + tax), and the cart-page and checkout-page
computations agree on all four values. -/
theorem c4_summary_formula_and_agreement (cart : Cart) :
    createCartSummaryCalc cart = computeSummarySpec cart ∧
    createCheckoutSummaryCalc cart = computeSummarySpec cart := by
  constructor <;>
    simp [createCartSummaryCalc, createCheckoutSummaryCalc, computeSummarySpec,
      foldl_lineTotal]

/-- The item of the spec's worked example: `tickets={adults:2,kids:1}`,
`unitPrice={adult:50,child:30}`, `days:2`. -/
def exampleItem : CartItem :=
  { id := "cart-1"
    parkId := "p1"
    days := 2
    tickets := { adults := 2, kids := 1 }
    unitPrice := { adult := 50, child := 30 }
    parkName := "Park"
    parkImage := "img" }

/-- C6: on the concrete one-item cart of the spec's example the summary
is exactly `lineTotal = 260`, `subtotal = 260`, `discount = 0` (260 is
not above the strict 500 threshold), `tax = 20.8` and `total = 280.8`,
computed exactly (no intermediate rounding in the rational model). -/
theorem c6_worked_example :
    lineTotal exampleItem = 260 ∧
    createCartSummaryCalc { items := [exampleItem] } =
      { subtotal := 260, discount := 0, tax := 20.8, total := 280.8 } := by
  constructor
  · norm_num [lineTotal, exampleItem]
  · norm_num [createCartSummaryCalc, exampleItem]

theorem updateFirst_negative (itemId : String) (ty : TicketType) (q : Int) (hq : q < 0) :
    ∀ l : List CartItem, updateFirst l itemId ty q = l := by
  intro l
  induction l with
  | nil => rfl
  | cons a l ih =>
    simp only [updateFirst]
    by_cases hid : a.id = itemId
    · rw [if_pos hid, if_neg (not_le.mpr hq)]
    · rw [if_neg hid, ih]

/-- C8: a negative `newQuantity` leaves the cart completely unchanged
(the target item's quantities and all other items), yet the unchanged
cart is still persisted (the store-level operation writes `some cart`
back, since `saveCart` on line 134 runs unconditionally). -/
theorem c8_negative_quantity_ignored (cart : Cart) (itemId : String) (ty : TicketType)
    (q : Int) (hq : q < 0) :
    updateCartItemQuantity cart itemId ty q = cart ∧
    updateCartItemQuantityStore (some cart) itemId ty q = some cart := by
  have h := updateFirst_negative itemId ty q hq cart.items
  constructor
  · show ({ items := updateFirst cart.items itemId ty q } : Cart) = cart
    rw [h]
  · show some ({ items := updateFirst cart.items itemId ty q } : Cart) = some cart
    rw [h]

/-- C8 witness: the negative-quantity theorem at a concrete cart. -/
theorem c8_witness :
    updateCartItemQuantity cartW "cart-1" TicketType.kids (-1) = cartW ∧
    updateCartItemQuantityStore (some cartW) "cart-1" TicketType.kids (-1) = some cartW :=
  c8_negative_quantity_ignored cartW "cart-1" TicketType.kids (-1) (by decide)

/-- C9: removing a nonexistent id leaves the item list identical (same
items, same fields, same order - the cart is equal to the original) and
the cart is still persisted afterward. -/
theorem c9_remove_nonexistent (cart : Cart) (itemId : String)
    (h : ∀ item ∈ cart.items, item.id ≠ itemId) :
    removeItemFromCart cart itemId = cart ∧
    removeItemFromCartStore (some cart) itemId = some cart := by
  have hfil : cart.items.filter (fun item => decide (item.id ≠ itemId)) = cart.items :=
    List.filter_eq_self.mpr (fun a ha => by simpa using h a ha)
  constructor
  · show ({ items := cart.items.filter (fun item => decide (item.id ≠ itemId)) } : Cart) = cart
    rw [hfil]
  · show some ({ items := cart.items.filter (fun item => decide (item.id ≠ itemId)) } : Cart)
      = some cart
    rw [hfil]

/-- C9 witness: removing the absent id `zz` from a concrete cart. -/
theorem c9_witness :
    removeItemFromCart cartW "zz" = cartW ∧
    removeItemFromCartStore (some cartW) "zz" = some cartW :=
  c9_remove_nonexistent cartW "zz" (by decide)

/-- C10: `removeItemFromCart` removes every item whose id equals the
given id (even when several items share it, as id collisions permit),
and keeps all other items with their fields and relative order unchanged
(the result is a sublist of the original containing every item whose id
differs). -/
theorem c10_removes_every_match (cart : Cart) (itemId : String) :
    (∀ item ∈ (removeItemFromCart cart itemId).items, item.id ≠ itemId) ∧
    (∀ item ∈ cart.items, item.id ≠ itemId → item ∈ (removeItemFromCart cart itemId).items) ∧
    (removeItemFromCart cart itemId).items.Sublist cart.items := by
  refine ⟨?_, ?_, ?_⟩
  · intro item hmem
    have h := List.mem_filter.mp hmem
    simpa using h.2
  · intro item hmem hne
    exact List.mem_filter.mpr ⟨hmem, by simpa using hne⟩
  · exact List.filter_sublist cart.items

/-- A cart in which two distinct items share the id `dup`. -/
def cartDup : Cart :=
  { items :=
    [ { id := "dup"
        parkId := "p1"
        days := 1
        tickets := { adults := 1, kids := 0 }
        unitPrice := { adult := 50, child := 30 }
        parkName := "A"
        parkImage := "a" },
      itemW,
      { id := "dup"
        parkId := "p2"
        days := 3
        tickets := { adults := 0, kids := 2 }
        unitPrice := { adult := 20, child := 10 }
        parkName := "B"
        parkImage := "b" } ] }

/-- C10 witness: the theorem at the duplicate-id cart shows the item with
a different id survives the removal. -/
theorem c10_witness : itemW ∈ (removeItemFromCart cartDup "dup").items :=
  (c10_removes_every_match cartDup "dup").2.1 itemW (by decide) (by decide)

/-- C3 counterexample: the claim says `load()` never raises and returns a
fresh empty cart for an unparsable blob; but `getCart` (line 66) calls
`JSON.parse` with no try/catch, so on the present, non-empty, unparsable
blob consisting of a single opening brace the parse error propagates to
the caller instead of any cart being returned. -/
theorem c3_counterexample :
    getCart (some "\x7b") = Except.error "SyntaxError" ∧
    ∀ v : JsValue, getCart (some "\x7b") ≠ Except.ok v := by
  refine ⟨rfl, ?_⟩
  intro v h
  exact Except.noConfusion h

/-- C3 (amended): `load()` returns the fresh empty cart when the blob is
absent (`getItem` returned `null`) or is the empty string (the one falsy
string); but when the blob is present, non-empty and unparsable, the
`JSON.parse` exception propagates to the caller - malformed persisted
data is not treated as an empty cart. -/
theorem c3_amended :
    getCart none = Except.ok emptyCartJs ∧
    getCart (some "") = Except.ok emptyCartJs ∧
    ∀ s e : String, jsonParse s = Except.error e → s ≠ "" →
      getCart (some s) = Except.error e := by
  refine ⟨rfl, rfl, ?_⟩
  intro s e he hs
  simp only [getCart, if_neg hs]
  exact he

/-- C3 witness: the amended theorem applied to the unparsable blob
consisting of a single opening brace. -/
theorem c3_witness : getCart (some "\x7b") = Except.error "SyntaxError" :=
  c3_amended.2.2 "\x7b" "SyntaxError" rfl (by decide)

theorem addMerge_eq_none (n : CartItemInput) :
    ∀ l : List CartItem, (∀ x ∈ l, ¬(x.parkId = n.parkId ∧ x.days = n.days)) →
      addMerge l n = none := by
  intro l
  induction l with
  | nil => intro _; rfl
  | cons a l ih =>
    intro h
    simp only [addMerge]
    rw [if_neg (h a (List.mem_cons_self a l)),
      ih (fun y hy => h y (List.mem_cons_of_mem a hy))]
    rfl

theorem addItemToCart_append (cart : Cart) (n : CartItemInput) (now : Nat)
    (h : ∀ x ∈ cart.items, ¬(x.parkId = n.parkId ∧ x.days = n.days)) :
    addItemToCart cart n now = { items := cart.items ++ [mkCartItem n now] } := by
  have hm := addMerge_eq_none n cart.items h
  simp only [addItemToCart, hm]

/-- First `addItemToCart` input for the id-collision scenario. -/
def inputA : CartItemInput :=
  { parkId := "p1"
    days := 1
    tickets := { adults := 1, kids := 0 }
    unitPrice := { adult := 50, child := 30 }
    parkName := "Alpha"
    parkImage := "a" }

/-- Second input, with a different `(parkId, days)` pair, added in the
same millisecond as the first. -/
def inputB : CartItemInput :=
  { parkId := "p2"
    days := 1
    tickets := { adults := 2, kids := 1 }
    unitPrice := { adult := 40, child := 20 }
    parkName := "Beta"
    parkImage := "b" }

/-- C5 counterexample: the freshly generated id is `cart-${Date.now()}`,
so two items added for different `(parkId, days)` pairs in the same
millisecond receive the same id - the claim that the fresh id is
distinct from the id of every item already in the cart fails. -/
theorem c5_counterexample :
    ((addItemToCart (addItemToCart { items := [] } inputA 5) inputB 5).items.map
        (fun item => item.id)) = ["cart-5", "cart-5"] ∧
    ¬ ((addItemToCart (addItemToCart { items := [] } inputA 5) inputB 5).items.map
        (fun item => item.id)).Nodup := by
  constructor
  · decide
  · decide

/-- C5 (amended): when no existing item shares the `(parkId, days)` pair,
`addItemToCart` appends exactly one new item at the end of the list,
carrying all fields of the input plus the generated id
`cart-${Date.now()}`; that id is distinct from all existing ids provided
no existing item already carries the string `cart-` followed by the
current timestamp (the code does nothing to guarantee this). -/
theorem c5_appends_with_generated_id (cart : Cart) (n : CartItemInput) (now : Nat)
    (hpair : ∀ x ∈ cart.items, ¬(x.parkId = n.parkId ∧ x.days = n.days))
    (hid : ∀ x ∈ cart.items, x.id ≠ "cart-" ++ toString now) :
    (addItemToCart cart n now).items = cart.items ++ [mkCartItem n now] ∧
    (mkCartItem n now).id = "cart-" ++ toString now ∧
    (mkCartItem n now).parkId = n.parkId ∧
    (mkCartItem n now).days = n.days ∧
    (mkCartItem n now).tickets = n.tickets ∧
    (mkCartItem n now).unitPrice = n.unitPrice ∧
    (mkCartItem n now).parkName = n.parkName ∧
    (mkCartItem n now).parkImage = n.parkImage ∧
    ∀ x ∈ cart.items, x.id ≠ (mkCartItem n now).id := by
  refine ⟨?_, rfl, rfl, rfl, rfl, rfl, rfl, rfl, hid⟩
  rw [addItemToCart_append cart n now hpair]

/-- C5 witness: the append theorem at a concrete cart whose single item
has a different pair and an id other than `cart-9`. -/
theorem c5_witness :
    (addItemToCart cartW inputW 9).items = cartW.items ++ [mkCartItem inputW 9] ∧
    (mkCartItem inputW 9).id = "cart-" ++ toString 9 ∧
    (mkCartItem inputW 9).parkId = inputW.parkId ∧
    (mkCartItem inputW 9).days = inputW.days ∧
    (mkCartItem inputW 9).tickets = inputW.tickets ∧
    (mkCartItem inputW 9).unitPrice = inputW.unitPrice ∧
    (mkCartItem inputW 9).parkName = inputW.parkName ∧
    (mkCartItem inputW 9).parkImage = inputW.parkImage ∧
    ∀ x ∈ cartW.items, x.id ≠ (mkCartItem inputW 9).id :=
  c5_appends_with_generated_id cartW inputW 9 (by decide) (by decide)

theorem updateFirst_first_match (itemId : String) (ty : TicketType) (q : Int) (hq : 0 ≤ q)
    (it : CartItem) (hit : it.id = itemId) :
    ∀ l1 l2 : List CartItem, (∀ x ∈ l1, x.id ≠ itemId) →
      updateFirst (l1 ++ it :: l2) itemId ty q =
        if (setTicket it.tickets ty q).adults = 0 ∧ (setTicket it.tickets ty q).kids = 0 then
          l1 ++ l2
        else
          l1 ++ { it with tickets := setTicket it.tickets ty q } :: l2 := by
  intro l1
  induction l1 with
  | nil =>
    intro l2 _
    simp only [List.nil_append, updateFirst, if_pos hit, if_pos hq]
  | cons a l1 ih =>
    intro l2 h
    have ha : ¬ a.id = itemId := h a (List.mem_cons_self a l1)
    simp only [List.cons_append, updateFirst, if_neg ha, List.append_eq]
    rw [ih l2 (fun y hy => h y (List.mem_cons_of_mem a hy))]
    by_cases hz : (setTicket it.tickets ty q).adults = 0 ∧ (setTicket it.tickets ty q).kids = 0
    · rw [if_pos hz, if_pos hz]
    · rw [if_neg hz, if_neg hz]

/-- C7: for a cart whose first item with the given id is `it` (no earlier
item has that id), `updateCartItemQuantity(id, ty, 0)` removes `it`
entirely when setting the given ticket type to 0 makes both counts
exactly zero - the item count drops by exactly 1; and when at least one
count stays nonzero, `it` remains in place with the specified count set
to 0. -/
theorem c7_update_to_zero (l1 l2 : List CartItem) (it : CartItem) (itemId : String)
    (ty : TicketType) (hfirst : ∀ x ∈ l1, x.id ≠ itemId) (hit : it.id = itemId) :
    ((setTicket it.tickets ty 0).adults = 0 ∧ (setTicket it.tickets ty 0).kids = 0 →
      (updateCartItemQuantity { items := l1 ++ it :: l2 } itemId ty 0).items = l1 ++ l2 ∧
      (updateCartItemQuantity { items := l1 ++ it :: l2 } itemId ty 0).items.length + 1
        = (l1 ++ it :: l2).length) ∧
    (¬ ((setTicket it.tickets ty 0).adults = 0 ∧ (setTicket it.tickets ty 0).kids = 0) →
      (updateCartItemQuantity { items := l1 ++ it :: l2 } itemId ty 0).items
        = l1 ++ { it with tickets := setTicket it.tickets ty 0 } :: l2) := by
  have hdec := updateFirst_first_match itemId ty 0 (le_refl 0) it hit l1 l2 hfirst
  constructor
  · intro hz
    have hres : (updateCartItemQuantity { items := l1 ++ it :: l2 } itemId ty 0).items
        = l1 ++ l2 := by
      show updateFirst (l1 ++ it :: l2) itemId ty 0 = l1 ++ l2
      rw [hdec, if_pos hz]
    refine ⟨hres, ?_⟩
    rw [hres]
    simp only [List.length_append, List.length_cons]
    omega
  · intro hz
    show updateFirst (l1 ++ it :: l2) itemId ty 0
      = l1 ++ { it with tickets := setTicket it.tickets ty 0 } :: l2
    rw [hdec, if_neg hz]

/-- An item whose kids count is already zero, so zeroing its adults count
empties it. -/
def itemZ : CartItem :=
  { id := "z"
    parkId := "p3"
    days := 1
    tickets := { adults := 3, kids := 0 }
    unitPrice := { adult := 10, child := 5 }
    parkName := "Z"
    parkImage := "z" }

/-- C7 witness: zeroing the adults count of `itemZ` removes it and the
item count drops from 2 to 1. -/
theorem c7_witness :
    (updateCartItemQuantity { items := [] ++ itemZ :: [itemW] } "z" TicketType.adults 0).items
      = [] ++ [itemW] ∧
    (updateCartItemQuantity { items := [] ++ itemZ :: [itemW] } "z" TicketType.adults 0).items.length
        + 1
      = ([] ++ itemZ :: [itemW]).length :=
  (c7_update_to_zero [] [itemW] itemZ "z" TicketType.adults (by decide) (by decide)).1 (by decide)

theorem addMerge_append_single (n : CartItemInput) (it : CartItem)
    (hit : it.parkId = n.parkId ∧ it.days = n.days) :
    ∀ l : List CartItem, (∀ x ∈ l, ¬(x.parkId = n.parkId ∧ x.days = n.days)) →
      addMerge (l ++ [it]) n = some (l ++ [mergeTickets it n]) := by
  intro l
  induction l with
  | nil =>
    intro _
    simp only [List.nil_append, addMerge, if_pos hit]
  | cons a l ih =>
    intro h
    simp only [List.cons_append, addMerge, if_neg (h a (List.mem_cons_self a l)), List.append_eq]
    rw [ih (fun y hy => h y (List.mem_cons_of_mem a hy))]
    rfl

theorem addItemToCart_merge_last (l : List CartItem) (it : CartItem) (n : CartItemInput)
    (now : Nat) (hl : ∀ x ∈ l, ¬(x.parkId = n.parkId ∧ x.days = n.days))
    (hit : it.parkId = n.parkId ∧ it.days = n.days) :
    addItemToCart { items := l ++ [it] } n now = { items := l ++ [mergeTickets it n] } := by
  have hm := addMerge_append_single n it hit l hl
  simp only [addItemToCart, hm]

theorem addAll_merge_last (l : List CartItem) (p : String) (d : Int)
    (hl : ∀ x ∈ l, ¬(x.parkId = p ∧ x.days = d)) :
    ∀ (adds : List (CartItemInput × Nat)) (it : CartItem),
      it.parkId = p → it.days = d →
      (∀ a ∈ adds, a.1.parkId = p ∧ a.1.days = d) →
      addAll { items := l ++ [it] } adds =
        { items := l ++ [{ it with tickets :=
            { adults := it.tickets.adults + (adds.map (fun a => a.1.tickets.adults)).sum
              kids := it.tickets.kids + (adds.map (fun a => a.1.tickets.kids)).sum } }] } := by
  intro adds
  induction adds with
  | nil =>
    intro it hp hd _
    simp only [addAll, List.foldl_nil, List.map_nil, List.sum_nil, add_zero]
  | cons a adds ih =>
    intro it hp hd hall
    have ha := hall a (List.mem_cons_self a adds)
    have hstep : addItemToCart { items := l ++ [it] } a.1 a.2
        = { items := l ++ [mergeTickets it a.1] } := by
      apply addItemToCart_merge_last
      · intro x hx hc
        exact hl x hx ⟨hc.1.trans ha.1, hc.2.trans ha.2⟩
      · exact ⟨hp.trans ha.1.symm, hd.trans ha.2.symm⟩
    have hrec := ih (mergeTickets it a.1) (by simpa [mergeTickets] using hp)
      (by simpa [mergeTickets] using hd)
      (fun y hy => hall y (List.mem_cons_of_mem a hy))
    calc addAll { items := l ++ [it] } (a :: adds)
        = addAll { items := l ++ [mergeTickets it a.1] } adds := by
          simp only [addAll, List.foldl_cons, hstep]
      _ = _ := by
          rw [hrec]
          simp [mergeTickets, add_assoc]

theorem filter_no_pair_match (p : String) (d : Int) :
    ∀ l : List CartItem, (∀ x ∈ l, ¬(x.parkId = p ∧ x.days = d)) →
      l.filter (fun x => decide (x.parkId = p ∧ x.days = d)) = [] := by
  intro l
  induction l with
  | nil => intro _; rfl
  | cons a l ih =>
    intro h
    have hl := ih (fun y hy => h y (List.mem_cons_of_mem a hy))
    rw [List.filter_cons, if_neg (by simpa using h a (List.mem_cons_self a l))]
    exact hl

/-- An item already in the cart for the pair `("p1", 1)`, with 5 adult
tickets. -/
def itemPre : CartItem :=
  { id := "old"
    parkId := "p1"
    days := 1
    tickets := { adults := 5, kids := 0 }
    unitPrice := { adult := 50, child := 30 }
    parkName := "A"
    parkImage := "a" }

/-- C1 counterexample: the claim quantifies over every starting cart, but
starting from a cart that already holds an item for the pair, the single
item for `("p1", 1)` after one addition of 1 adult carries 6 adult
tickets, not the sum 1 of the additions alone. -/
theorem c1_counterexample :
    ((addAll { items := [itemPre] } [(inputA, 3)]).items.filter
        (fun x => decide (x.parkId = "p1" ∧ x.days = 1))).map (fun x => x.tickets.adults)
      ≠ [([(inputA, 3)].map (fun a => a.1.tickets.adults)).sum] := by
  decide

/-- C1 (amended): for every nonempty sequence of `addItemToCart` calls
whose inputs share the pair `(p, d)`, starting from any cart holding no
item for that pair, the resulting cart holds exactly one item for the
pair; its `tickets.adults` and `tickets.kids` equal the sums of the
corresponding inputs across all the additions, and every merge preserves
the existing item's `unitPrice` snapshot, so the surviving item carries
the first addition's prices, not the later inputs'. -/
theorem c1_merge_accumulates (cart : Cart) (p : String) (d : Int)
    (first : CartItemInput × Nat) (rest : List (CartItemInput × Nat))
    (hcart : ∀ x ∈ cart.items, ¬(x.parkId = p ∧ x.days = d))
    (hfirst : first.1.parkId = p ∧ first.1.days = d)
    (hrest : ∀ a ∈ rest, a.1.parkId = p ∧ a.1.days = d) :
    ∃ w : CartItem,
      (addAll cart (first :: rest)).items.filter
          (fun x => decide (x.parkId = p ∧ x.days = d)) = [w] ∧
      w.tickets.adults = ((first :: rest).map (fun a => a.1.tickets.adults)).sum ∧
      w.tickets.kids = ((first :: rest).map (fun a => a.1.tickets.kids)).sum ∧
      w.unitPrice = first.1.unitPrice := by
  have hstep : addItemToCart cart first.1 first.2
      = { items := cart.items ++ [mkCartItem first.1 first.2] } := by
    apply addItemToCart_append
    intro x hx hc
    exact hcart x hx ⟨hc.1.trans hfirst.1, hc.2.trans hfirst.2⟩
  have hall := addAll_merge_last cart.items p d hcart rest (mkCartItem first.1 first.2)
    hfirst.1 hfirst.2 hrest
  have hchain : addAll cart (first :: rest) =
      { items := cart.items ++ [{ mkCartItem first.1 first.2 with tickets :=
          { adults := (mkCartItem first.1 first.2).tickets.adults
              + (rest.map (fun a => a.1.tickets.adults)).sum
            kids := (mkCartItem first.1 first.2).tickets.kids
              + (rest.map (fun a => a.1.tickets.kids)).sum } }] } := by
    calc addAll cart (first :: rest)
        = addAll { items := cart.items ++ [mkCartItem first.1 first.2] } rest := by
          simp only [addAll, List.foldl_cons, hstep]
      _ = _ := hall
  have hfil : (addAll cart (first :: rest)).items.filter
      (fun x => decide (x.parkId = p ∧ x.days = d))
      = [{ mkCartItem first.1 first.2 with tickets :=
          { adults := (mkCartItem first.1 first.2).tickets.adults
              + (rest.map (fun a => a.1.tickets.adults)).sum
            kids := (mkCartItem first.1 first.2).tickets.kids
              + (rest.map (fun a => a.1.tickets.kids)).sum } }] := by
    simp only [hchain]
    rw [List.filter_append, filter_no_pair_match p d cart.items hcart]
    simp [mkCartItem, hfirst.1, hfirst.2]
  refine ⟨_, hfil, ?_, ?_, ?_⟩
  · simp [mkCartItem, List.map_cons, List.sum_cons]
  · simp [mkCartItem, List.map_cons, List.sum_cons]
  · rfl

/-- A second addition for the same pair as `inputA`, with different
counts and different prices. -/
def inputA2 : CartItemInput :=
  { parkId := "p1"
    days := 1
    tickets := { adults := 2, kids := 3 }
    unitPrice := { adult := 99, child := 98 }
    parkName := "Alpha"
    parkImage := "a" }

/-- C1 witness: two same-pair additions to the empty cart leave exactly
one item whose counts are the sums and whose prices are the first
addition's snapshot. -/
theorem c1_witness :
    ∃ w : CartItem,
      (addAll { items := [] } [(inputA, 3), (inputA2, 4)]).items.filter
          (fun x => decide (x.parkId = "p1" ∧ x.days = 1)) = [w] ∧
      w.tickets.adults = ([(inputA, 3), (inputA2, 4)].map (fun a => a.1.tickets.adults)).sum ∧
      w.tickets.kids = ([(inputA, 3), (inputA2, 4)].map (fun a => a.1.tickets.kids)).sum ∧
      w.unitPrice = (inputA, 3).1.unitPrice :=
  c1_merge_accumulates { items := [] } "p1" 1 (inputA, 3) [(inputA2, 4)]
    (by decide) (by decide) (by decide)
